import Mathlib

/-!
Verification of the version-negotiation and schema-conversion layer of the
custom-metrics client (package `custom_metrics`): the negotiation rule
(`chooseVersion` / `negotiatePreferredVersion`), the discovery-backed cached
version source (`PreferredVersion` / `Invalidate`), the cache-miss retry
policy of `APIVersionsFromDiscovery.Versions`, and the hub-and-spoke
conversion `UnsafeConvertToVersionVia`.

Shallow embedding: Go structs become Lean structures, package-level maps
become lookup functions, fallible Go functions return `Except String`,
and the stateful receiver (`apiVersionsFromDiscovery`) is modelled by
explicit state passing with a call counter on the discovery collaborator.
-/

/-- `schema.GroupVersion`: a (group, version-string) pair. -/
structure GroupVersion where
  group : String
  version : String
deriving DecidableEq, Repr

/-- `schema.GroupVersion.String()`: `group + "/" + version` when the group is
non-empty, else just the version. -/
def GroupVersion.toStr (gv : GroupVersion) : String :=
  if 0 < gv.group.length then gv.group ++ "/" ++ gv.version else gv.version

/-- `runtime.APIVersionInternal`, the version string of the internal (pivot)
schema version. -/
def APIVersionInternal : String := "__internal"

/-- `cmint.GroupName`, the name of the custom-metrics API group. -/
def GroupName : String := "custom.metrics.k8s.io"

/-- `MetricVersions` (util.go): the ordered set of metric group-versions
accepted by the converter — v1beta2, v1beta1, then the internal version. -/
def MetricVersions : List GroupVersion :=
  [⟨GroupName, "v1beta2"⟩, ⟨GroupName, "v1beta1"⟩, ⟨GroupName, APIVersionInternal⟩]

/-- `metricVersionsToGV`: the package-level map from group-version strings to
`GroupVersion` values, built from `MetricVersions` in `init()`. The keys of
`MetricVersions` are pairwise distinct so first-match lookup agrees with the
Go map. -/
def metricVersionsToGV (s : String) : Option GroupVersion :=
  MetricVersions.find? (fun gv => gv.toStr == s)

/-- `metav1.GroupVersionForDiscovery`: one advertised version of a group. -/
structure GroupVersionForDiscovery where
  groupVersion : String
  version : String
deriving DecidableEq, Repr

/-- `metav1.APIGroup`: a discovered API group — name, advertised versions in
server order, and the (possibly zero-valued) declared preferred version. -/
structure APIGroup where
  name : String
  versions : List GroupVersionForDiscovery
  preferredVersion : GroupVersionForDiscovery
deriving DecidableEq, Repr

/-- The scan loop of `chooseVersion` (lines 90–95 of the discovery source):
walk the advertised versions in server order and take the first whose
group-version string is a key of the known map. -/
def scanVersions (known : String → Option GroupVersion) :
    List GroupVersionForDiscovery → Option GroupVersion
  | [] => none
  | version :: rest =>
    match known version.groupVersion with
    | some gv => some gv
    | none => scanVersions known rest

/-- `apiVersionsFromDiscovery.chooseVersion`, parameterized by the known-map
(the Go code reads the package-level `metricVersionsToGV`): use the declared
preferred version when its string is non-empty and a key of the map,
otherwise scan the advertised list; error when nothing matches. -/
def chooseVersionWith (known : String → Option GroupVersion) (apiGroup : APIGroup) :
    Except String GroupVersion :=
  let preferredVersion : Option GroupVersion :=
    match known apiGroup.preferredVersion.groupVersion with
    | some gv =>
      if apiGroup.preferredVersion.groupVersion.length ≠ 0 then some gv
      else scanVersions known apiGroup.versions
    | none => scanVersions known apiGroup.versions
  match preferredVersion with
  | some gv => Except.ok gv
  | none => Except.error "no known available metric versions found"

/-- `chooseVersion` with the actual package-level map. -/
def chooseVersion (apiGroup : APIGroup) : Except String GroupVersion :=
  chooseVersionWith metricVersionsToGV apiGroup

/-- The scan loop of `MetricConverter.negotiatePreferredVersion`
(util.go lines 145–150), translated separately from its own source. -/
def negotiateScanVersions (known : String → Option GroupVersion) :
    List GroupVersionForDiscovery → Option GroupVersion
  | [] => none
  | version :: rest =>
    match known version.groupVersion with
    | some gv => some gv
    | none => negotiateScanVersions known rest

/-- `MetricConverter.negotiatePreferredVersion` (util.go lines 138–157),
parameterized by the known-map. The Go function returns `*schema.GroupVersion`
where `chooseVersion` returns a value; both are `Except String GroupVersion`
here. -/
def negotiatePreferredVersionWith (known : String → Option GroupVersion)
    (apiGroup : APIGroup) : Except String GroupVersion :=
  let preferredVersion : Option GroupVersion :=
    match known apiGroup.preferredVersion.groupVersion with
    | some gv =>
      if apiGroup.preferredVersion.groupVersion.length ≠ 0 then some gv
      else negotiateScanVersions known apiGroup.versions
    | none => negotiateScanVersions known apiGroup.versions
  match preferredVersion with
  | some gv => Except.ok gv
  | none => Except.error "no known available metric versions found"

/-- `negotiatePreferredVersion` with the actual package-level map. -/
def negotiatePreferredVersion (apiGroup : APIGroup) : Except String GroupVersion :=
  negotiatePreferredVersionWith metricVersionsToGV apiGroup

/-- `metav1.APIGroupList`: the result of `ServerGroups()`. -/
structure APIGroupList where
  groups : List APIGroup
deriving DecidableEq, Repr

/-- State of `apiVersionsFromDiscovery` (the discovery-backed version source):
the discovery collaborator is modelled as a map from call index to response so
that a fake collaborator can fail or change its answer over time, `callCount`
counts `ServerGroups` invocations, and `prefVersion` is the cached
`NegotiatedVersion`. The `sync.RWMutex` is elided: the embedding is
sequential, so the double-checked fast path and fill path collapse into one
cache check. -/
structure ApiVersionsFromDiscovery where
  client : Nat → Except String APIGroupList
  callCount : Nat
  prefVersion : Option GroupVersion

/-- `apiVersionsFromDiscovery.fetchVersions` (lines 62–83): call
`ServerGroups`, propagate its error, then take the first advertised group
named `cmint.GroupName`, erroring when it is absent. -/
def fetchVersions (d : ApiVersionsFromDiscovery) :
    Except String APIGroup × ApiVersionsFromDiscovery :=
  ((match d.client d.callCount with
    | Except.error e => Except.error e
    | Except.ok groups =>
      match groups.groups.find? (fun g => g.name == GroupName) with
      | some apiGroup => Except.ok apiGroup
      | none => Except.error ("no custom metrics API (" ++ GroupName ++ ") registered")),
   { d with callCount := d.callCount + 1 })

/-- The fetch-then-negotiate error chain of `PreferredVersion` (lines
122–129): a fetch error propagates through the early return, otherwise the
fetched group is negotiated with `chooseVersion`. -/
def negotiateFetched (r : Except String APIGroup) : Except String GroupVersion :=
  match r with
  | Except.error e => Except.error e
  | Except.ok groupInfo => chooseVersion groupInfo

/-- `apiVersionsFromDiscovery.PreferredVersion` (lines 104–133): serve the
cached version when present; otherwise fetch, negotiate, and install the
result in the cache only on success. -/
def PreferredVersion (d : ApiVersionsFromDiscovery) :
    Except String GroupVersion × ApiVersionsFromDiscovery :=
  match d.prefVersion with
  | some pv => (Except.ok pv, d)
  | none =>
    match negotiateFetched (fetchVersions d).fst with
    | Except.error e => (Except.error e, (fetchVersions d).snd)
    | Except.ok prefVersion =>
      (Except.ok prefVersion, { (fetchVersions d).snd with prefVersion := some prefVersion })

/-- `apiVersionsFromDiscovery.Invalidate` (lines 135–140): unconditionally
clear the cached version. -/
def Invalidate (d : ApiVersionsFromDiscovery) : ApiVersionsFromDiscovery :=
  { d with prefVersion := none }

/-- Run `n` successive `PreferredVersion` calls, collecting each result. -/
def runCalls : Nat → ApiVersionsFromDiscovery →
    List (Except String GroupVersion) × ApiVersionsFromDiscovery
  | 0, d => ([], d)
  | n + 1, d =>
    let p := PreferredVersion d
    let q := runCalls n p.snd
    (p.fst :: q.fst, q.snd)

/-- Error type of the cached discovery collaborator: `cached.ErrCacheEmpty`
is distinguished because `Versions` treats it as a cache miss. -/
inductive DiscoErr where
  | cacheEmpty : DiscoErr
  | other : String → DiscoErr
deriving DecidableEq, Repr

/-- Errors surfaced by `APIVersionsFromDiscovery.Versions`: a discovery error
passed through verbatim, or the "no metrics API group registered" failure. -/
inductive VersionsErr where
  | disco : DiscoErr → VersionsErr
  | notRegistered : VersionsErr
deriving DecidableEq, Repr

/-- State of the `CachedDiscoveryInterface` collaborator embedded in
`APIVersionsFromDiscovery` (util.go): responses indexed by fetch number, with
counters for `ServerGroups` and `Invalidate` invocations. -/
structure CachedDiscovery where
  responses : Nat → Except DiscoErr APIGroupList
  fetchCount : Nat
  invalidateCount : Nat

/-- `CachedDiscoveryInterface.ServerGroups`: return the next response and
bump the fetch counter. -/
def CachedDiscovery.serverGroups (d : CachedDiscovery) :
    Except DiscoErr APIGroupList × CachedDiscovery :=
  (d.responses d.fetchCount, { d with fetchCount := d.fetchCount + 1 })

/-- `CachedDiscoveryInterface.Invalidate`: count the invalidation signal. -/
def CachedDiscovery.invalidate (d : CachedDiscovery) : CachedDiscovery :=
  { d with invalidateCount := d.invalidateCount + 1 }

/-- `APIVersionsFromDiscovery.maybeFetchVersions` (util.go lines 66–86): fetch
the server groups without retrying; the Go triple `(group, present, err)`
becomes `Except DiscoErr (Option APIGroup)` with `ok none` for
"present = false". -/
def maybeFetchVersions (d : CachedDiscovery) :
    Except DiscoErr (Option APIGroup) × CachedDiscovery :=
  ((match (d.serverGroups).fst with
    | Except.error e => Except.error e
    | Except.ok groups =>
      Except.ok (groups.groups.find? (fun g => g.name == GroupName))),
   (d.serverGroups).snd)

/-- The retry condition of `Versions` (util.go line 91):
`(err == nil && !present) || err == cached.ErrCacheEmpty`. -/
def isCacheMiss : Except DiscoErr (Option APIGroup) → Bool
  | Except.ok none => true
  | Except.error DiscoErr.cacheEmpty => true
  | _ => false

/-- `APIVersionsFromDiscovery.Versions` (util.go lines 88–105): on a cache
miss, invalidate the cached discovery once and fetch once more; then surface
a remaining error verbatim, or "no metrics API group registered" when the
group is still absent. -/
def Versions (d : CachedDiscovery) : Except VersionsErr APIGroup × CachedDiscovery :=
  let p1 := maybeFetchVersions d
  let p2 := if isCacheMiss p1.fst then maybeFetchVersions p1.snd.invalidate else p1
  match p2.fst with
  | Except.error e => (Except.error (VersionsErr.disco e), p2.snd)
  | Except.ok none => (Except.error VersionsErr.notRegistered, p2.snd)
  | Except.ok (some group) => (Except.ok group, p2.snd)

/-- A value tagged with the wire schema version it is currently encoded in
(a `runtime.Object` carrying its group-version). -/
structure TaggedObj (α : Type) where
  gv : GroupVersion
  val : α
deriving DecidableEq, Repr

/-- Modelled from the spec: the conversion tables behind `runtime.Scheme`
(k8s.io/apimachinery, not under src/). Per §4.4/§9 of the design, conversion
is a table of per-version to-pivot and from-pivot functions keyed by
`VersionIdentifier`. -/
structure ConversionScheme (α : Type) where
  toPivot : GroupVersion → α → Except String α
  fromPivot : GroupVersion → α → Except String α

/-- Modelled from the spec: `runtime.Scheme.UnsafeConvertToVersion`
(k8s.io/apimachinery, not under src/) — the single-leg conversion primitive.
Converting an object already at the target version is the identity; a leg
whose target is the pivot uses the source version's to-pivot entry; a leg
from the pivot uses the target version's from-pivot entry; no direct
external-to-external conversion is registered. -/
def unsafeConvertToVersion (cs : ConversionScheme α) (obj : TaggedObj α)
    (target : GroupVersion) : Except String (TaggedObj α) :=
  if obj.gv = target then Except.ok obj
  else if target.version = APIVersionInternal then
    (cs.toPivot obj.gv obj.val).map (fun v => ⟨target, v⟩)
  else if obj.gv.version = APIVersionInternal then
    (cs.fromPivot target obj.val).map (fun v => ⟨target, v⟩)
  else Except.error "conversion not registered"

/-- `MetricConverter.UnsafeConvertToVersionVia` (util.go lines 200–212):
convert to the internal version of the target's group, then to the target,
wrapping each leg's error message as the Go code does. -/
def UnsafeConvertToVersionVia (cs : ConversionScheme α) (obj : TaggedObj α)
    (externalVersion : GroupVersion) : Except String (TaggedObj α) :=
  match unsafeConvertToVersion cs obj ⟨externalVersion.group, APIVersionInternal⟩ with
  | Except.error e =>
    Except.error ("failed to convert the given object to the internal version: " ++ e)
  | Except.ok objInt =>
    match unsafeConvertToVersion cs objInt externalVersion with
    | Except.error e =>
      Except.error ("failed to convert the given object back to the external version: " ++ e)
    | Except.ok objExt => Except.ok objExt

/-- Specification-side description of rule 2 of the negotiation precedence:
the first advertised entry (server order) that is a member of the known set,
phrased with `List.find?` rather than the code's scan loop. -/
def firstKnownWith (known : String → Option GroupVersion)
    (vs : List GroupVersionForDiscovery) : Option GroupVersion :=
  (vs.find? (fun v => (known v.groupVersion).isSome)).bind
    (fun v => known v.groupVersion)

/-- The v1beta1 metric group-version, used as a concrete test input. -/
def v1beta1GV : GroupVersion := ⟨GroupName, "v1beta1"⟩

/-- A metrics API group advertising v1beta1 with no declared preference. -/
def sampleGroup : APIGroup :=
  ⟨GroupName, [⟨"custom.metrics.k8s.io/v1beta1", "v1beta1"⟩], ⟨"", ""⟩⟩

/-- A version source over a fake discovery collaborator that fails its first
call and succeeds afterwards, starting with an empty cache. -/
def flakyDiscovery : ApiVersionsFromDiscovery :=
  ⟨fun n => if n == 0 then Except.error "boom" else Except.ok ⟨[sampleGroup]⟩, 0, none⟩

/-- A version source over a fake discovery collaborator that always succeeds,
starting with an empty cache. -/
def stableDiscovery : ApiVersionsFromDiscovery :=
  ⟨fun _ => Except.ok ⟨[sampleGroup]⟩, 0, none⟩

/-- A cached discovery collaborator whose listing never contains the metrics
group. -/
def emptyListDiscovery : CachedDiscovery := ⟨fun _ => Except.ok ⟨[]⟩, 0, 0⟩

/-- A cached discovery collaborator that always fails with a genuine
(non-cache-empty) error. -/
def failingDiscovery : CachedDiscovery :=
  ⟨fun _ => Except.error (DiscoErr.other "boom"), 0, 0⟩

/-- An instrumented conversion scheme over trace lists: each leg appends its
own name, so conversion invocations are observable in the resulting value. -/
def traceScheme : ConversionScheme (List String) :=
  ⟨fun _ l => Except.ok (l ++ ["toPivot"]), fun _ l => Except.ok (l ++ ["fromPivot"])⟩

/-- A conversion scheme over integers whose to-pivot and from-pivot legs are
mutually inverse. -/
def incScheme : ConversionScheme Int :=
  ⟨fun _ n => Except.ok (n + 1), fun _ n => Except.ok (n - 1)⟩

/-- A known-map containing only the bare version "v2", for the §8 scenario
where the client knows only `["v2"]`. -/
def knownV2 : String → Option GroupVersion :=
  fun s => if s == "v2" then some ⟨"", "v2"⟩ else none

/-- The §8 scenario group: declared-preferred "v1", advertising ["v1","v2"]. -/
def scenarioGroup : APIGroup := ⟨"g", [⟨"v1", "v1"⟩, ⟨"v2", "v2"⟩], ⟨"v1", "v1"⟩⟩

/-! ## Helper lemmas -/

theorem scanVersions_eq_firstKnownWith (known : String → Option GroupVersion)
    (vs : List GroupVersionForDiscovery) :
    scanVersions known vs = firstKnownWith known vs := by
  induction vs with
  | nil => rfl
  | cons v rest ih =>
    simp only [scanVersions, firstKnownWith, List.find?]
    cases h : known v.groupVersion with
    | some gv => simp [h]
    | none => simpa [h, firstKnownWith] using ih

theorem negotiateScanVersions_eq_scanVersions (known : String → Option GroupVersion)
    (vs : List GroupVersionForDiscovery) :
    negotiateScanVersions known vs = scanVersions known vs := by
  induction vs with
  | nil => rfl
  | cons v rest ih =>
    simp only [negotiateScanVersions, scanVersions]
    cases h : known v.groupVersion with
    | some gv => rfl
    | none => exact ih

theorem String.length_ne_zero_of_ne_empty {s : String} (h : s ≠ "") :
    s.length ≠ 0 := by
  intro h0
  apply h
  cases s with
  | mk data =>
    simp only [String.length, List.length_eq_zero] at h0
    subst h0
    rfl

/-- `fetchVersions` always advances the call counter by one and touches
nothing else in the state. -/
theorem fetchVersions_snd (d : ApiVersionsFromDiscovery) :
    (fetchVersions d).snd = { d with callCount := d.callCount + 1 } := rfl

/-- A cached version source serves the cache and leaves the state alone. -/
theorem PreferredVersion_cached (d : ApiVersionsFromDiscovery) (v : GroupVersion)
    (h : d.prefVersion = some v) : PreferredVersion d = (Except.ok v, d) := by
  simp [PreferredVersion, h]

/-- A successful `PreferredVersion` call leaves its result in the cache. -/
theorem PreferredVersion_success_caches (d : ApiVersionsFromDiscovery)
    (v : GroupVersion) (hok : (PreferredVersion d).fst = Except.ok v) :
    (PreferredVersion d).snd.prefVersion = some v := by
  cases hc : d.prefVersion with
  | some pv =>
    rw [PreferredVersion_cached d pv hc] at hok ⊢
    have h2 : Except.ok (ε := String) pv = Except.ok v := hok
    injection h2 with hpv
    exact hc.trans (congrArg some hpv)
  | none =>
    simp only [PreferredVersion, hc] at hok ⊢
    cases hr : negotiateFetched (fetchVersions d).fst with
    | error e =>
      rw [hr] at hok
      exact Except.noConfusion
        (show Except.error (α := GroupVersion) e = Except.ok v from hok)
    | ok pref =>
      rw [hr] at hok
      have h2 : Except.ok (ε := String) pref = Except.ok v := hok
      injection h2 with hpref
      subst hpref
      rfl

/-- An uncached `PreferredVersion` call invokes discovery exactly once. -/
theorem PreferredVersion_uncached_callCount (d : ApiVersionsFromDiscovery)
    (h : d.prefVersion = none) :
    (PreferredVersion d).snd.callCount = d.callCount + 1 := by
  simp only [PreferredVersion, h]
  cases hr : negotiateFetched (fetchVersions d).fst with
  | error e => rfl
  | ok pref => rfl

/-- A failing `PreferredVersion` call leaves the cache empty. -/
theorem PreferredVersion_error_prefVersion (d : ApiVersionsFromDiscovery)
    (e : String) (herr : (PreferredVersion d).fst = Except.error e) :
    (PreferredVersion d).snd.prefVersion = none ∧ d.prefVersion = none := by
  cases hc : d.prefVersion with
  | some pv =>
    rw [PreferredVersion_cached d pv hc] at herr
    exact Except.noConfusion
      (show Except.ok (ε := String) pv = Except.error e from herr)
  | none =>
    refine ⟨?_, rfl⟩
    simp only [PreferredVersion, hc] at herr ⊢
    cases hr : negotiateFetched (fetchVersions d).fst with
    | error e2 => exact hc
    | ok pref =>
      rw [hr] at herr
      exact Except.noConfusion
        (show Except.ok (ε := String) pref = Except.error e from herr)

/-- `maybeFetchVersions` always advances the fetch counter by one and touches
nothing else. -/
theorem maybeFetchVersions_snd (d : CachedDiscovery) :
    (maybeFetchVersions d).snd = { d with fetchCount := d.fetchCount + 1 } := rfl

/-! ## Claim theorems -/

/-- C1: for every advertised group whose declared preferred version is
non-empty and a member of the client's known version set, negotiation
(`chooseVersion` and `negotiatePreferredVersion`) returns exactly that
declared version, for every advertised version list (hence regardless of its
order). -/
theorem negotiate_declared_preferred_wins (g : APIGroup) (gv : GroupVersion)
    (vs : List GroupVersionForDiscovery)
    (hknown : metricVersionsToGV g.preferredVersion.groupVersion = some gv)
    (hne : g.preferredVersion.groupVersion ≠ "") :
    chooseVersion { g with versions := vs } = Except.ok gv ∧
    negotiatePreferredVersion { g with versions := vs } = Except.ok gv := by
  have hlen : g.preferredVersion.groupVersion.length ≠ 0 :=
    String.length_ne_zero_of_ne_empty hne
  constructor
  · simp [chooseVersion, chooseVersionWith, hknown, hlen]
  · simp [negotiatePreferredVersion, negotiatePreferredVersionWith, hknown, hlen]

/-- Witness for C1 at a concrete group declaring v1beta1 while advertising
v1beta2. -/
theorem negotiate_declared_preferred_wins_witness :
    chooseVersion ⟨GroupName, [⟨"custom.metrics.k8s.io/v1beta2", "v1beta2"⟩],
        ⟨"custom.metrics.k8s.io/v1beta1", "v1beta1"⟩⟩ =
      Except.ok ⟨GroupName, "v1beta1"⟩ ∧
    negotiatePreferredVersion ⟨GroupName,
        [⟨"custom.metrics.k8s.io/v1beta2", "v1beta2"⟩],
        ⟨"custom.metrics.k8s.io/v1beta1", "v1beta1"⟩⟩ =
      Except.ok ⟨GroupName, "v1beta1"⟩ :=
  negotiate_declared_preferred_wins
    ⟨GroupName, [], ⟨"custom.metrics.k8s.io/v1beta1", "v1beta1"⟩⟩
    ⟨GroupName, "v1beta1"⟩
    [⟨"custom.metrics.k8s.io/v1beta2", "v1beta2"⟩]
    rfl (by decide)

/-- C2: for every advertised group with no declared preferred version (empty
string) or whose declared preferred version is not in the known set,
negotiation returns the first advertised entry (in server-supplied order)
that is a member of the known set, and errors when no advertised entry is a
member. -/
theorem negotiate_fallback_first_known (g : APIGroup)
    (hfall : g.preferredVersion.groupVersion = "" ∨
      metricVersionsToGV g.preferredVersion.groupVersion = none) :
    (∀ gv, firstKnownWith metricVersionsToGV g.versions = some gv →
      chooseVersion g = Except.ok gv ∧ negotiatePreferredVersion g = Except.ok gv) ∧
    (firstKnownWith metricVersionsToGV g.versions = none →
      chooseVersion g = Except.error "no known available metric versions found" ∧
      negotiatePreferredVersion g =
        Except.error "no known available metric versions found") := by
  have hch : chooseVersion g =
      (match firstKnownWith metricVersionsToGV g.versions with
       | some gv => Except.ok gv
       | none => Except.error "no known available metric versions found") := by
    rw [← scanVersions_eq_firstKnownWith]
    rcases hfall with hempty | hnone
    · simp only [chooseVersion, chooseVersionWith, hempty]
      cases metricVersionsToGV "" <;> simp
    · simp [chooseVersion, chooseVersionWith, hnone]
  have hng : negotiatePreferredVersion g =
      (match firstKnownWith metricVersionsToGV g.versions with
       | some gv => Except.ok gv
       | none => Except.error "no known available metric versions found") := by
    rw [← scanVersions_eq_firstKnownWith, ← negotiateScanVersions_eq_scanVersions]
    rcases hfall with hempty | hnone
    · simp only [negotiatePreferredVersion, negotiatePreferredVersionWith, hempty]
      cases metricVersionsToGV "" <;> simp
    · simp [negotiatePreferredVersion, negotiatePreferredVersionWith, hnone]
  constructor
  · intro gv hgv
    rw [hch, hng, hgv]
    exact ⟨rfl, rfl⟩
  · intro hnone2
    rw [hch, hng, hnone2]
    exact ⟨rfl, rfl⟩

/-- Witness for C2 at a concrete group with no declared preference whose
advertised list starts with an unknown version followed by v1beta2. -/
theorem negotiate_fallback_first_known_witness :
    chooseVersion ⟨GroupName, [⟨"other/v1", "v1"⟩,
        ⟨"custom.metrics.k8s.io/v1beta2", "v1beta2"⟩], ⟨"", ""⟩⟩ =
      Except.ok ⟨GroupName, "v1beta2"⟩ ∧
    negotiatePreferredVersion ⟨GroupName, [⟨"other/v1", "v1"⟩,
        ⟨"custom.metrics.k8s.io/v1beta2", "v1beta2"⟩], ⟨"", ""⟩⟩ =
      Except.ok ⟨GroupName, "v1beta2"⟩ :=
  (negotiate_fallback_first_known
    ⟨GroupName, [⟨"other/v1", "v1"⟩,
      ⟨"custom.metrics.k8s.io/v1beta2", "v1beta2"⟩], ⟨"", ""⟩⟩
    (Or.inl rfl)).1 ⟨GroupName, "v1beta2"⟩ rfl

/-- C9: the two textually duplicated implementations of the negotiation rule,
`chooseVersion` in the discovery-backed version source and
`negotiatePreferredVersion` in `MetricConverter`, compute the same result
(same chosen version, or the same error) for every known-map and every
`APIGroup` input. -/
theorem chooseVersion_eq_negotiatePreferredVersion
    (known : String → Option GroupVersion) (g : APIGroup) :
    chooseVersionWith known g = negotiatePreferredVersionWith known g ∧
    chooseVersion g = negotiatePreferredVersion g := by
  constructor
  · simp only [chooseVersionWith, negotiatePreferredVersionWith,
      negotiateScanVersions_eq_scanVersions]
  · simp only [chooseVersion, negotiatePreferredVersion, chooseVersionWith,
      negotiatePreferredVersionWith, negotiateScanVersions_eq_scanVersions]

/-- C4 counterexample: for the §8 scenario — declared-preferred "v1",
advertised list ["v1", "v2"], client knowing only "v2" — negotiation does
NOT fail: both implementations return "v2", because an unknown declared
preference falls through to the advertised-list scan, which finds "v2". -/
theorem negotiate_scenario_counterexample :
    chooseVersionWith knownV2 scenarioGroup = Except.ok ⟨"", "v2"⟩ ∧
    negotiatePreferredVersionWith knownV2 scenarioGroup = Except.ok ⟨"", "v2"⟩ ∧
    ∀ e, chooseVersionWith knownV2 scenarioGroup ≠ Except.error e := by
  refine ⟨rfl, rfl, ?_⟩
  intro e h
  rw [show chooseVersionWith knownV2 scenarioGroup = Except.ok ⟨"", "v2"⟩
    from rfl] at h
  exact Except.noConfusion h

/-- C4 amended: in the §8 scenario the declared preference "v1" is ignored
(it is not in the known set) and negotiation succeeds with "v2", the first
advertised entry that the client knows. -/
theorem negotiate_scenario_returns_v2 :
    chooseVersionWith knownV2 scenarioGroup = Except.ok ⟨"", "v2"⟩ ∧
    negotiatePreferredVersionWith knownV2 scenarioGroup = Except.ok ⟨"", "v2"⟩ :=
  ⟨rfl, rfl⟩

/-- C6 counterexample: a fake discovery collaborator that fails its first
call refutes "at most one discovery call across the whole sequence": two
`PreferredVersion` calls (without an intervening invalidate) invoke discovery
twice, because nothing is cached after the failed first call. The claim's
other conjunct is not at issue: the call after the first successful one does
return the cached value. -/
theorem preferredVersion_repeat_counterexample :
    (runCalls 2 flakyDiscovery).fst =
      [Except.error "boom", Except.ok ⟨GroupName, "v1beta1"⟩] ∧
    (runCalls 2 flakyDiscovery).snd.callCount = 2 ∧
    ¬ (runCalls 2 flakyDiscovery).snd.callCount ≤ 1 := by
  refine ⟨rfl, rfl, ?_⟩
  intro h
  rw [show (runCalls 2 flakyDiscovery).snd.callCount = 2 from rfl] at h
  omega

/-- C6 amended: after the first successful `PreferredVersion` call (with no
intervening invalidate), every later call returns the identical cached value
and leaves the state — including the discovery call count — unchanged, so
discovery is never re-invoked after a success and is invoked exactly once
across a sequence whose first call succeeds; a failed call, however, caches
nothing, so each call before the first success invokes discovery once more. -/
theorem preferredVersion_after_success (d : ApiVersionsFromDiscovery)
    (v : GroupVersion) (hok : (PreferredVersion d).fst = Except.ok v) (n : Nat) :
    runCalls n (PreferredVersion d).snd =
      (List.replicate n (Except.ok v), (PreferredVersion d).snd) := by
  have hcache : (PreferredVersion d).snd.prefVersion = some v :=
    PreferredVersion_success_caches d v hok
  induction n with
  | zero => rfl
  | succ m ih =>
    simp only [runCalls, PreferredVersion_cached (PreferredVersion d).snd v hcache,
      ih, List.replicate]

/-- Witness for C6's amended theorem: over an always-succeeding fake
collaborator, the two calls after the first (successful) one both return the
cached v1beta1 and leave the state untouched. -/
theorem preferredVersion_after_success_witness :
    runCalls 2 (PreferredVersion stableDiscovery).snd =
      (List.replicate 2 (Except.ok ⟨GroupName, "v1beta1"⟩),
        (PreferredVersion stableDiscovery).snd) :=
  preferredVersion_after_success stableDiscovery ⟨GroupName, "v1beta1"⟩ rfl 2

/-- C7: for every cache state, `Invalidate` unconditionally clears the cached
version and is idempotent, and a `PreferredVersion` call right after it
re-invokes the discovery collaborator (the call count always rises by one). -/
theorem invalidate_then_preferredVersion_refetches (d : ApiVersionsFromDiscovery) :
    (Invalidate d).prefVersion = none ∧
    Invalidate (Invalidate d) = Invalidate d ∧
    (PreferredVersion (Invalidate d)).snd.callCount = d.callCount + 1 := by
  refine ⟨rfl, rfl, ?_⟩
  exact PreferredVersion_uncached_callCount (Invalidate d) rfl

/-- C8: whenever `PreferredVersion` returns an error (discovery failure,
absent group, or failed negotiation), nothing is cached — the cache equals
its prior value, which that error forces to be empty — and therefore the next
`PreferredVersion` call re-invokes discovery. -/
theorem preferredVersion_error_caches_nothing (d : ApiVersionsFromDiscovery)
    (e : String) (herr : (PreferredVersion d).fst = Except.error e) :
    (PreferredVersion d).snd.prefVersion = d.prefVersion ∧
    (PreferredVersion d).snd.prefVersion = none ∧
    (PreferredVersion ((PreferredVersion d).snd)).snd.callCount =
      (PreferredVersion d).snd.callCount + 1 := by
  obtain ⟨hafter, hbefore⟩ := PreferredVersion_error_prefVersion d e herr
  exact ⟨hafter.trans hbefore.symm, hafter,
    PreferredVersion_uncached_callCount (PreferredVersion d).snd hafter⟩

/-- Witness for C8 at the flaky collaborator, whose first call fails with a
discovery error. -/
theorem preferredVersion_error_caches_nothing_witness :
    (PreferredVersion flakyDiscovery).snd.prefVersion =
      flakyDiscovery.prefVersion ∧
    (PreferredVersion flakyDiscovery).snd.prefVersion = none ∧
    (PreferredVersion ((PreferredVersion flakyDiscovery).snd)).snd.callCount =
      (PreferredVersion flakyDiscovery).snd.callCount + 1 :=
  preferredVersion_error_caches_nothing flakyDiscovery "boom" rfl

/-- C10: `APIVersionsFromDiscovery.Versions` handles a cache miss on the
first fetch (group absent from the listing, or the empty-cache error) by
invalidating the underlying cached discovery exactly once and re-fetching
exactly once (final counters: one extra invalidation, two fetches); the
"no metrics API group registered" error is returned only when the group is
still absent after that single retry; and a genuine fetch error on the first
call is returned verbatim with no invalidation and no retry. -/
theorem Versions_cache_miss_policy (d : CachedDiscovery) :
    (isCacheMiss (maybeFetchVersions d).fst = true →
      (Versions d).snd.invalidateCount = d.invalidateCount + 1 ∧
      (Versions d).snd.fetchCount = d.fetchCount + 2 ∧
      ((maybeFetchVersions ((maybeFetchVersions d).snd.invalidate)).fst =
          Except.ok none →
        (Versions d).fst = Except.error VersionsErr.notRegistered)) ∧
    (∀ m, d.responses d.fetchCount = Except.error (DiscoErr.other m) →
      (Versions d).fst = Except.error (VersionsErr.disco (DiscoErr.other m)) ∧
      (Versions d).snd.invalidateCount = d.invalidateCount ∧
      (Versions d).snd.fetchCount = d.fetchCount + 1) := by
  constructor
  · intro hmiss
    refine ⟨?_, ?_, ?_⟩
    · simp only [Versions, hmiss, if_true]
      cases hr : (maybeFetchVersions ((maybeFetchVersions d).snd.invalidate)).fst with
      | error e =>
        simp [maybeFetchVersions_snd, CachedDiscovery.invalidate]
      | ok og =>
        cases og <;> simp [maybeFetchVersions_snd, CachedDiscovery.invalidate]
    · simp only [Versions, hmiss, if_true]
      cases hr : (maybeFetchVersions ((maybeFetchVersions d).snd.invalidate)).fst with
      | error e =>
        simp [maybeFetchVersions_snd, CachedDiscovery.invalidate]
      | ok og =>
        cases og <;> simp [maybeFetchVersions_snd, CachedDiscovery.invalidate]
    · intro hnone
      simp only [Versions, hmiss, if_true]
      rw [hnone]
  · intro m hresp
    have hfst : (maybeFetchVersions d).fst = Except.error (DiscoErr.other m) := by
      simp [maybeFetchVersions, CachedDiscovery.serverGroups, hresp]
    have hmiss : isCacheMiss (maybeFetchVersions d).fst = false := by
      rw [hfst]; rfl
    refine ⟨?_, ?_, ?_⟩
    · simp only [Versions, hmiss, Bool.false_eq_true, if_false]
      rw [hfst]
    · simp only [Versions, hmiss, Bool.false_eq_true, if_false]
      rw [hfst]
      simp [maybeFetchVersions_snd]
    · simp only [Versions, hmiss, Bool.false_eq_true, if_false]
      rw [hfst]
      simp [maybeFetchVersions_snd]

/-- Witness for C10: a collaborator whose listing never contains the group
yields one invalidation, two fetches, and the registration error; a
collaborator that always fails yields the verbatim error with one fetch and
no invalidation. -/
theorem Versions_cache_miss_policy_witness :
    ((Versions emptyListDiscovery).snd.invalidateCount =
        emptyListDiscovery.invalidateCount + 1 ∧
      (Versions emptyListDiscovery).snd.fetchCount =
        emptyListDiscovery.fetchCount + 2 ∧
      (Versions emptyListDiscovery).fst =
        Except.error VersionsErr.notRegistered) ∧
    ((Versions failingDiscovery).fst =
        Except.error (VersionsErr.disco (DiscoErr.other "boom")) ∧
      (Versions failingDiscovery).snd.invalidateCount =
        failingDiscovery.invalidateCount ∧
      (Versions failingDiscovery).snd.fetchCount =
        failingDiscovery.fetchCount + 1) := by
  have hA := (Versions_cache_miss_policy emptyListDiscovery).1 rfl
  have hB := (Versions_cache_miss_policy failingDiscovery).2 "boom" rfl
  exact ⟨⟨hA.1, hA.2.1, hA.2.2 rfl⟩, hB⟩

/-- C3 counterexample: converting a value already at an external version X to
X itself through `UnsafeConvertToVersionVia` is NOT a pivot-free identity —
the code has no same-version short-circuit and routes through the internal
hub unconditionally. With the instrumented trace scheme, both the to-pivot
and from-pivot legs fire and the result differs from the input value. -/
theorem convertVia_same_version_counterexample :
    UnsafeConvertToVersionVia traceScheme ⟨v1beta1GV, []⟩ v1beta1GV =
      Except.ok ⟨v1beta1GV, ["toPivot", "fromPivot"]⟩ ∧
    UnsafeConvertToVersionVia traceScheme ⟨v1beta1GV, []⟩ v1beta1GV ≠
      Except.ok ⟨v1beta1GV, []⟩ := by
  refine ⟨rfl, ?_⟩
  intro h
  rw [show UnsafeConvertToVersionVia traceScheme ⟨v1beta1GV, []⟩ v1beta1GV =
      Except.ok ⟨v1beta1GV, ["toPivot", "fromPivot"]⟩ from rfl] at h
  simp at h

/-- C3 amended: for every external version X (X is not the pivot itself),
`UnsafeConvertToVersionVia` of a value already at X back to X invokes the
to-pivot and from-pivot conversions rather than short-circuiting, and
returns the value unchanged exactly when those two legs round-trip it —
as the repository's generated conversions do, but not by construction of the
conversion path. -/
theorem convertVia_same_version_roundtrip (cs : ConversionScheme α) (v i : α)
    (X : GroupVersion) (hext : X.version ≠ APIVersionInternal)
    (htp : cs.toPivot X v = Except.ok i) (hfp : cs.fromPivot X i = Except.ok v) :
    UnsafeConvertToVersionVia cs ⟨X, v⟩ X = Except.ok ⟨X, v⟩ := by
  have hXne : X ≠ (⟨X.group, APIVersionInternal⟩ : GroupVersion) := by
    intro hEq
    exact hext (congrArg GroupVersion.version hEq)
  have hpivne : (⟨X.group, APIVersionInternal⟩ : GroupVersion) ≠ X :=
    Ne.symm hXne
  simp [UnsafeConvertToVersionVia, unsafeConvertToVersion, hXne, hpivne, hext,
    htp, hfp, Except.map]

/-- Witness for C3's amended theorem with mutually inverse integer legs. -/
theorem convertVia_same_version_roundtrip_witness :
    UnsafeConvertToVersionVia incScheme ⟨v1beta1GV, (5 : Int)⟩ v1beta1GV =
      Except.ok ⟨v1beta1GV, (5 : Int)⟩ :=
  convertVia_same_version_roundtrip incScheme 5 6 v1beta1GV (by decide) rfl rfl

/-- C5: whenever the leg from the source version to the pivot and the leg
from the pivot to target version B both succeed, `UnsafeConvertToVersionVia`
returns exactly the composition of those two single-leg conversions. -/
theorem convertVia_eq_pivot_composition (cs : ConversionScheme α)
    (obj m r : TaggedObj α) (B : GroupVersion)
    (h1 : unsafeConvertToVersion cs obj ⟨B.group, APIVersionInternal⟩ =
      Except.ok m)
    (h2 : unsafeConvertToVersion cs m B = Except.ok r) :
    UnsafeConvertToVersionVia cs obj B = Except.ok r := by
  simp [UnsafeConvertToVersionVia, h1, h2]

/-- Witness for C5: a v1beta1-tagged integer converted to v1beta2 via the pivot
equals the manual to-pivot then from-pivot composition. -/
theorem convertVia_eq_pivot_composition_witness :
    UnsafeConvertToVersionVia incScheme ⟨v1beta1GV, (0 : Int)⟩
        ⟨GroupName, "v1beta2"⟩ =
      Except.ok ⟨⟨GroupName, "v1beta2"⟩, (0 : Int)⟩ :=
  convertVia_eq_pivot_composition incScheme ⟨v1beta1GV, 0⟩
    ⟨⟨GroupName, APIVersionInternal⟩, 1⟩ ⟨⟨GroupName, "v1beta2"⟩, 0⟩
    ⟨GroupName, "v1beta2"⟩ rfl rfl
